import Mathlib

/-
Verification of the schedule_manager scheduling engine against its
natural-language specification.

Shallow embedding conventions:
  * Calendar dates are represented by their proleptic-Gregorian ordinal as a
    `Nat` (Python's `date.toordinal()`); ordinal 1 is 0001-01-01, a Monday,
    so Python's `date.weekday()` (Monday = 0 ... Sunday = 6) is
    `(o - 1) % 7`.  ISO strings only ever flow through equality comparisons
    in the projected code, so the ordinal faithfully replaces them.
  * Python floats in the analyzer are modelled as `ℚ`; machine ints as
    `Nat`/`Int` (`total_available` is `Int` because
    `total_days - len(raw_constraints)` may go negative in Python).
  * Dict iteration in the projection code is modelled as iteration over an
    association list in insertion order.
-/

namespace ScheduleManager

/-! ## Problem analyzer
    Embeds `_analyze_problem_complexity_async` (schedule/tasks.py, lines
    211-257); `_analyze_problem_complexity` in schedule/views.py lines
    115-175 is the same computation plus logging. -/

/-- A soldier as seen by the analyzer: `raw_constraints` holds the
unavailable days (ordinals) the callers pass in, plus the two role flags
counted by the analyzer. -/
structure ASoldier where
  rawConstraints : List Nat
  isExceptionalOutput : Bool
  isWeekendOnlyFlag : Bool
  deriving Repr, DecidableEq

/-- Result record of the analyzer (tasks.py lines 247-257). -/
structure Analysis where
  totalDays : Nat
  totalSoldiers : Nat
  requiredTotal : Nat
  totalAvailable : Int
  ratio : ℚ
  exceptionalSoldiers : Nat
  weekendSoldiers : Nat
  heavilyConstrained : Nat
  difficulty : String
  deriving Repr, DecidableEq

/-- Python `(end_date - start_date).days + 1` for a valid window
(`start ≤ end`); an inverted window gives a non-positive day count in
Python, modelled here as `0`. -/
def totalDaysOf (startD endD : Nat) : Nat :=
  if startD ≤ endD then endD - startD + 1 else 0

/-- The per-soldier constraint density `len(raw_constraints) / total_days`
(tasks.py line 226). -/
def densityQ (totalDays : Nat) (s : ASoldier) : ℚ :=
  (s.rawConstraints.length : ℚ) / (totalDays : ℚ)

/-- Embeds `_analyze_problem_complexity_async` (tasks.py lines 211-257).
The accumulation loop over soldiers is expressed with list folds; the
difficulty chain is the source's `if/elif` cascade verbatim. -/
def analyzeProblemComplexity (soldiers : List ASoldier)
    (startD endD : Nat) (minRequired : Nat) : Analysis :=
  let totalDays := totalDaysOf startD endD
  let requiredTotal := totalDays * minRequired
  let totalAvailable : Int :=
    soldiers.foldl (fun acc s => acc + ((totalDays : Int) - s.rawConstraints.length)) 0
  let exceptionalSoldiers := soldiers.countP (fun s => s.isExceptionalOutput)
  let weekendSoldiers := soldiers.countP (fun s => s.isWeekendOnlyFlag)
  let heavilyConstrained := soldiers.countP (fun s => densityQ totalDays s > 2/5)
  let ratio : ℚ :=
    if requiredTotal > 0 then (totalAvailable : ℚ) / (requiredTotal : ℚ) else 1
  let difficulty : String :=
    if heavilyConstrained ≥ 3 ∨ ratio < 11/10 then "APOCALYPTIC"
    else if heavilyConstrained ≥ 2 ∨ ratio < 13/10 then "EXTREME"
    else if heavilyConstrained ≥ 1 ∨ ratio < 3/2 then "HARD"
    else "MEDIUM"
  { totalDays := totalDays
    totalSoldiers := soldiers.length
    requiredTotal := requiredTotal
    totalAvailable := totalAvailable
    ratio := ratio
    exceptionalSoldiers := exceptionalSoldiers
    weekendSoldiers := weekendSoldiers
    heavilyConstrained := heavilyConstrained
    difficulty := difficulty }

/-- The difficulty table exactly as the claim words it: first matching rule
in order APOCALYPTIC / EXTREME / HARD, else MEDIUM.  Written from the
spec's table, to be compared with the analyzer embedded from the source. -/
def difficultySpec (heavyCount : Nat) (ratio : ℚ) : String :=
  if heavyCount ≥ 3 ∨ ratio < 11/10 then "APOCALYPTIC"
  else if heavyCount ≥ 2 ∨ ratio < 13/10 then "EXTREME"
  else if heavyCount ≥ 1 ∨ ratio < 3/2 then "HARD"
  else "MEDIUM"

/-! ## Parameter adapter
    Embeds `_get_adaptive_parameters_async` (schedule/tasks.py lines
    260-302); `_get_adaptive_parameters` in views.py lines 177-223 is the
    same mapping plus logging.  The source's `params` dict also carries the
    scheduling-run parameters, which `params.update` leaves untouched; the
    record below holds exactly the keys the update writes. -/

/-- The penalty keys written by `params.update` in the adapter. -/
structure AdaptiveParams where
  flexibleDailyRequirement : Bool
  penaltyOneDayBlock : Nat
  penaltyShortage : Nat
  penaltyNoWork : Nat
  penaltyLongBlock : Nat
  criticalPenaltyLongBlock : Nat
  deriving Repr, DecidableEq

/-- Embeds `_get_adaptive_parameters_async` (tasks.py lines 260-302). -/
def getAdaptiveParameters (difficulty : String) (params : AdaptiveParams) :
    AdaptiveParams :=
  if difficulty = "APOCALYPTIC" then
    { params with
      flexibleDailyRequirement := true
      penaltyOneDayBlock := 50000000
      penaltyShortage := 5000000
      penaltyNoWork := 20000000
      penaltyLongBlock := 200000
      criticalPenaltyLongBlock := 10000000 }
  else if difficulty = "EXTREME" then
    { params with
      flexibleDailyRequirement := true
      penaltyOneDayBlock := 30000000
      penaltyShortage := 3000000
      penaltyNoWork := 15000000
      penaltyLongBlock := 150000
      criticalPenaltyLongBlock := 7000000 }
  else if difficulty = "HARD" then
    { params with
      flexibleDailyRequirement := true
      penaltyOneDayBlock := 20000000
      penaltyShortage := 2000000
      penaltyNoWork := 10000000
      penaltyLongBlock := 100000
      criticalPenaltyLongBlock := 5000000 }
  else
    { params with
      flexibleDailyRequirement := true
      penaltyOneDayBlock := 10000000
      penaltyShortage := 1000000
      penaltyNoWork := 5000000
      penaltyLongBlock := 50000
      criticalPenaltyLongBlock := 2000000 }

/-! ## Solver driver contract and result gating
    The CP-SAT wrapper `SmartScheduleSoldiers` lives in
    `schedule/algorithms/solver.py`, which is not part of the sources at
    hand; only its callers are.  Its outcome is modelled from the spec. -/

/-- Solver statuses as the spec names them (section 6.2 / 4.7). -/
inductive SolverStatus where
  | optimal
  | feasible
  | infeasible
  | unknown
  | error
  deriving Repr, DecidableEq

/-- One schedule entry of `solution_data`: a `{date, status}` pair
(`date` as ordinal, `status` a string such as `"Base"`). -/
structure DayEntry where
  date : Nat
  status : String
  deriving Repr, DecidableEq

/-- The solver's `solution_data`: a dict (insertion-ordered association
list) from soldier name to that soldier's `schedule` list; the extra
`daily_soldiers_count` key is skipped by every consumer modelled here. -/
abbrev SolutionData := List (String × List DayEntry)

/-- Modelled from the spec: the solver driver `SmartScheduleSoldiers.solve`
(`schedule/algorithms/solver.py`, absent from the sources) returns
solution data exactly on the statuses `Optimal` and `Feasible`
(spec sections 4.7 and 6.2: `schedule` is present iff
`status ∈ {Optimal, Feasible}`). -/
def driverContract (sol : Option SolutionData) (st : SolverStatus) : Prop :=
  sol.isSome ↔ (st = SolverStatus.optimal ∨ st = SolverStatus.feasible)

/-- The async result gate (tasks.py line 127): assignments are saved and
exports produced only under
`solution_data and solver_status in [cp_model.OPTIMAL, cp_model.FEASIBLE]`. -/
def asyncSaveGate (sol : Option SolutionData) (st : SolverStatus) : Bool :=
  sol.isSome && (st == SolverStatus.optimal || st == SolverStatus.feasible)

/-- The sync result gate (views.py line 454): assignments are saved under
`solution_data and solve_successful`, where `solve_successful` records that
`scheduler.solve()` returned without raising. -/
def syncSaveGate (sol : Option SolutionData) (solveSuccessful : Bool) : Bool :=
  sol.isSome && solveSuccessful

/-! ## CLI exit codes
    run_schedule_stateless.py raises `CommandError` when the solver returns
    no data (line 121-122); Django exits a management command with code 1 on
    `CommandError` and 0 otherwise.  end_to_end_existing_pipeline.py raises
    `SystemExit("Solver returned no data")` in `run_solver` (lines 179-180),
    which exits with code 1, and otherwise `main` returns 0 (line 259),
    giving exit code 0 via `raise SystemExit(main(...))`. -/

/-- Exit code of the stateless management command as a function of the
solver's returned data. -/
def statelessExitCode (sol : Option SolutionData) : Nat :=
  if sol.isSome then 0 else 1

/-- Exit code of the end-to-end pipeline script as a function of the
solver's returned data. -/
def pipelineExitCode (sol : Option SolutionData) : Nat :=
  if sol.isSome then 0 else 1

/-! ## Solution projection: presence maps
    views.py lines 458-471 (sync path) and tasks.py lines 313-327 (async
    path) both build `presence_map[current_date]`, listing the soldier names
    whose schedule holds a matching entry; the sync path matches status
    `'בסיס'`, the async path `'Base'`.  The inner `for ... break` appends a
    name once iff some entry matches, i.e. a filter in iteration order. -/

/-- Soldiers on base on day `d` per the sync (views.py) projection. -/
def syncPresence (sol : SolutionData) (d : Nat) : List String :=
  (sol.filter (fun p =>
    p.1 ≠ "daily_soldiers_count" &&
      p.2.any (fun e => e.date == d && e.status == "בסיס"))).map Prod.fst

/-- Soldiers on base on day `d` per the async (tasks.py) projection. -/
def asyncPresence (sol : SolutionData) (d : Nat) : List String :=
  (sol.filter (fun p =>
    p.1 ≠ "daily_soldiers_count" &&
      p.2.any (fun e => e.date == d && e.status == "Base"))).map Prod.fst

/-- Swaps the two status literals `'בסיס'` and `'Base'`, leaving every
other status unchanged. -/
def swapStatusLiteral (s : String) : String :=
  if s = "בסיס" then "Base" else if s = "Base" then "בסיס" else s

/-- Applies `swapStatusLiteral` to one schedule entry. -/
def swapEntryStatus (e : DayEntry) : DayEntry :=
  { e with status := swapStatusLiteral e.status }

/-- Applies `swapStatusLiteral` to every entry of a `solution_data`. -/
def swapSolutionStatuses (sol : SolutionData) : SolutionData :=
  sol.map (fun p => (p.1, p.2.map swapEntryStatus))

/-! ## Assignment saving
    tasks.py lines 329-350 (and views.py lines 477-490): for each day and
    each algorithm soldier present in `soldier_map`, an `Assignment` row is
    created with `is_on_base = algo_soldier.name in soldiers_on_base_for_day`,
    the day's presence list. -/

/-- An algorithm-layer soldier as the saving loop sees it. -/
structure AlgoSoldier where
  id : String
  name : String
  deriving Repr, DecidableEq

/-- The `is_on_base` value recorded for a soldier on one day: membership of
the soldier's name in that day's presence list (tasks.py line 337,
views.py line 482). -/
def savedIsOnBase (presence : List String) (s : AlgoSoldier) : Bool :=
  presence.contains s.name

/-! ## Stateless calendar export
    run_schedule_stateless.py lines 134-151: the calendar output groups, per
    date, entries `{"name": soldier_name}` into `on_base` (status `"Base"`)
    and `at_home` (all other statuses), skipping the `daily_soldiers_count`
    key and entries with a falsy date. -/

/-- A schedule item as the stateless command reads it: `.get("date")` and
`.get("status")` may be absent, hence `Option`. -/
structure StatelessEntry where
  date : Option Nat
  status : Option String
  deriving Repr, DecidableEq

/-- One calendar entry; the command emits `{"name": soldier_name}`, so the
`id` key is absent (`none`). -/
structure CalPerson where
  id : Option Nat
  name : String
  deriving Repr, DecidableEq

/-- The `{on_base, at_home}` object for one date. -/
structure DayCal where
  onBase : List CalPerson
  atHome : List CalPerson
  deriving Repr, DecidableEq

/-- The stateless solution shape: soldier name to schedule list. -/
abbrev StatelessSolution := List (String × List StatelessEntry)

/-- Folds one schedule item into the calendar accumulator for date `d`
(the body of the inner loop of run_schedule_stateless.py lines 139-150):
items without a date are skipped, items of another date are skipped, and a
matching item appends a name-only entry to `on_base` when its status is
`"Base"` and to `at_home` otherwise. -/
def calEntryStep (name : String) (d : Nat) (cal : DayCal)
    (e : StatelessEntry) : DayCal :=
  match e.date with
  | none => cal
  | some dd =>
    if dd = d then
      if e.status = some "Base" then
        { cal with onBase := cal.onBase ++ [{ id := none, name := name }] }
      else
        { cal with atHome := cal.atHome ++ [{ id := none, name := name }] }
    else cal

/-- Processes one soldier's schedule list into the calendar accumulator for
date `d` (the inner loop of run_schedule_stateless.py lines 139-150). -/
def calFoldEntries (name : String) (d : Nat) :
    DayCal → List StatelessEntry → DayCal
  | cal, [] => cal
  | cal, e :: es => calFoldEntries name d (calEntryStep name d cal e) es

/-- The outer loop over `solution_data` items (run_schedule_stateless.py
lines 136-150), skipping the `daily_soldiers_count` key. -/
def statelessCalendarGo (d : Nat) : DayCal → StatelessSolution → DayCal
  | cal, [] => cal
  | cal, p :: ps =>
      statelessCalendarGo d
        (if p.1 = "daily_soldiers_count" then cal else calFoldEntries p.1 d cal p.2) ps

/-- The `{on_base, at_home}` object the stateless calendar export builds for
date `d` (run_schedule_stateless.py lines 134-151, restricted to one date
of the date-keyed dict it fills). -/
def statelessCalendarAt (sol : StatelessSolution) (d : Nat) : DayCal :=
  statelessCalendarGo d { onBase := [], atHome := [] } sol

/-! ## Simple schedule generator
    Embeds `generate_simple_schedule` (simple_schedule_generator.py lines
    27-121) over date ordinals.  Unparseable date strings are skipped by the
    source's `except ValueError: continue`; with ordinals the input holds
    only valid dates, and the window filter below is the remaining (total,
    non-raising) drop step of lines 44-52. -/

/-- Python's `date.weekday()` for an ordinal: ordinal 1 is a Monday. -/
def pyWeekday (o : Nat) : Nat := (o - 1) % 7

/-- Line 70: `is_weekend = current_date.weekday() == 5` (Saturday only). -/
def isWeekendDay (o : Nat) : Bool := pyWeekday o == 5

/-- Line 178: the Excel export paints a date-header cell with the weekend
fill iff `date_obj.weekday() == 5`. -/
def excelHeaderWeekendFill (o : Nat) : Bool := pyWeekday o == 5

/-- The ordered day sequence `[start + i for i in range(total_days)]`
(lines 55-56). -/
def datesOf (startD endD : Nat) : List Nat :=
  (List.range (totalDaysOf startD endD)).map (fun i => startD + i)

/-- An employee record: display name and raw unavailable days. -/
structure Employee where
  name : String
  unavailableDays : List Nat
  deriving Repr, DecidableEq

/-- Lines 44-52: keep exactly the unavailable days inside the window; the
rest are dropped, not reported. -/
def effectiveUnavailable (startD endD : Nat) (emp : Employee) : List Nat :=
  emp.unavailableDays.filter (fun d => decide (startD ≤ d) && decide (d ≤ endD))

/-- Lines 74-82: the names available on day `d`, in employee order; a day in
the employee's (window-filtered) unavailable set excludes them, and the
hard-coded weekend-only soldier `ינון` is available only on weekend days. -/
def availableToday (startD endD : Nat) (employees : List Employee) (d : Nat) :
    List String :=
  (employees.filter (fun emp =>
    if (effectiveUnavailable startD endD emp).contains d then false
    else if emp.name = "ינון" then isWeekendDay d else true)).map Employee.name

/-- Lines 89-91: `if rotation_start >= len(available_today):
rotation_start = 0`. -/
def resetRotation (len rot : Nat) : Nat :=
  if len ≤ rot then 0 else rot

/-- Lines 92-96: read `available_today[rotation_start]` and, when the
soldier is not yet in `daily_assignments`, append them and bump
`assigned_count`; an out-of-range index leaves the state unchanged (after
the reset the index is always in range when the list is non-empty). -/
def tryAssign (available : List String) (rs : Nat) (da : List String)
    (assigned : Nat) : List String × Nat :=
  match available[rs]? with
  | some soldier =>
    if da.contains soldier then (da, assigned)
    else (da ++ [soldier], assigned + 1)
  | none => (da, assigned)

/-- The rotation-assignment `while` loop of lines 84-100, with an explicit
fuel argument bounding the iteration count (the loop runs at most
`len(available) + 1` iterations: `rotation_start` is reset below the list
length once and then strictly increases until the bottom `break` or the
loop condition fails).  State: `assigned` = `assigned_count`,
`rot` = `rotation_start`, `da` = `daily_assignments`. -/
def assignStep (available : List String) (perDay : Nat) :
    Nat → Nat → Nat → List String → List String
  | 0, _, _, da => da
  | fuel + 1, assigned, rot, da =>
    if assigned < perDay ∧ 0 < available.length then
      if available.length ≤ resetRotation available.length rot + 1
          ∧ (tryAssign available (resetRotation available.length rot) da assigned).2 < perDay then
        (tryAssign available (resetRotation available.length rot) da assigned).1
      else
        assignStep available perDay fuel
          (tryAssign available (resetRotation available.length rot) da assigned).2
          (resetRotation available.length rot + 1)
          (tryAssign available (resetRotation available.length rot) da assigned).1
    else da

/-- The day's `daily_assignments` list: the loop starting from
`assigned_count = 0`, `rotation_start = current_rotation` and an empty
list, with ample fuel (`soldiers_per_day = 4`, line 60). -/
def dailyAssignments (available : List String) (rot : Nat) : List String :=
  assignStep available 4 (available.length + 2) 0 rot []

/-- Line 103: `current_rotation = (current_rotation + soldiers_per_day) %
len(employees) if employees else 0`. -/
def nextRotation (numEmployees rot : Nat) : Nat :=
  if numEmployees = 0 then 0 else (rot + 4) % numEmployees

/-- One `{'date', 'status', 'is_weekend'}` record (lines 110-114), tagged
with the employee name it is appended under. -/
structure RowOut where
  date : Nat
  name : String
  status : String
  is_weekend : Bool
  deriving Repr, DecidableEq

/-- Lines 106-114 for one day: each employee receives a record whose status
is `'Base'` iff their name is in `daily_assignments`. -/
def dayRows (startD endD : Nat) (employees : List Employee) (rot : Nat)
    (d : Nat) : List RowOut :=
  let assigned := dailyAssignments (availableToday startD endD employees d) rot
  employees.map (fun emp =>
    { date := d
      name := emp.name
      status := if assigned.contains emp.name then "Base" else "Home"
      is_weekend := isWeekendDay d })

/-- The full per-(day, employee) record stream of the generator's main loop
(lines 69-119), folding the rotation counter across days.  The source then
groups these records into `schedule[name]['schedule']` by name key; the
records themselves carry all fields the claims touch. -/
def generateRows (startD endD : Nat) (employees : List Employee) :
    List RowOut :=
  ((datesOf startD endD).foldl
    (fun (acc : List RowOut × Nat) d =>
      (acc.1 ++ dayRows startD endD employees acc.2 d,
       nextRotation employees.length acc.2))
    ([], 0)).1

/-! ## Spec-side comparison definitions and concrete instances -/

/-- The five penalties of an adaptive-parameter record, in the order
one-day block, shortage, zero-work, long-block, critical long-block. -/
def penaltyVector (p : AdaptiveParams) : Nat × Nat × Nat × Nat × Nat :=
  (p.penaltyOneDayBlock, p.penaltyShortage, p.penaltyNoWork,
   p.penaltyLongBlock, p.criticalPenaltyLongBlock)

/-- Declarative description of the stateless calendar `on_base` list for a
date: in soldier order, one name-only entry per schedule item with that
date and status `"Base"`. -/
def calOnBaseSpec (sol : StatelessSolution) (d : Nat) : List CalPerson :=
  (sol.filter (fun p => p.1 ≠ "daily_soldiers_count")).flatMap
    (fun p => (p.2.filter (fun e => e.date == some d && e.status == some "Base")).map
      (fun _ => ({ id := none, name := p.1 } : CalPerson)))

/-- Declarative description of the stateless calendar `at_home` list for a
date: in soldier order, one name-only entry per schedule item with that
date and any status other than `"Base"`. -/
def calAtHomeSpec (sol : StatelessSolution) (d : Nat) : List CalPerson :=
  (sol.filter (fun p => p.1 ≠ "daily_soldiers_count")).flatMap
    (fun p => (p.2.filter (fun e => e.date == some d && !(e.status == some "Base"))).map
      (fun _ => ({ id := none, name := p.1 } : CalPerson)))

/-- Roster with one soldier and no constraints, for the analyzer. -/
def oneFreeSoldier : List ASoldier := [{ rawConstraints := [], isExceptionalOutput := false, isWeekendOnlyFlag := false }]

/-- A one-soldier solution placing `"A"` on base on day 1. -/
def solBaseA : SolutionData := [("A", [{ date := 1, status := "Base" }])]

/-- A one-soldier solution placing `"A"` on base on day 2, for witnesses. -/
def solBaseB : SolutionData := [("A", [{ date := 2, status := "Base" }])]

/-- A one-soldier solution placing `"A"` on base on day 3, for the exit
code witness. -/
def statelessWitnessSol : SolutionData := [("A", [{ date := 3, status := "Base" }])]

/-- A one-soldier stateless solution with a `"Base"` item on day 1. -/
def statelessSolA : StatelessSolution := [("A", [{ date := some 1, status := some "Base" }])]

/-- Two algorithm soldiers with different ids and the same name. -/
def soldierA1 : AlgoSoldier := { id := "1", name := "A" }

/-- Second algorithm soldier sharing `soldierA1`'s name. -/
def soldierA2 : AlgoSoldier := { id := "2", name := "A" }

/-- Two-employee roster where `"A"` is unavailable on day 3. -/
def rosterAB : List Employee := [{ name := "A", unavailableDays := [3] }, { name := "B", unavailableDays := [] }]

/-- One-employee roster with no constraints. -/
def rosterA : List Employee := [{ name := "A", unavailableDays := [] }]

/-! ## Helper lemmas -/

theorem swapStatusLiteral_eq_base (s : String) :
    (swapStatusLiteral s == "Base") = (s == "בסיס") := by
  by_cases h1 : s = "בסיס"
  · subst h1; decide
  · by_cases h2 : s = "Base"
    · subst h2; decide
    · have hA : (s == "Base") = false := beq_eq_false_iff_ne.mpr h2
      have hB : (s == "בסיס") = false := beq_eq_false_iff_ne.mpr h1
      simp [swapStatusLiteral, h1, h2, hA, hB]

theorem any_swapEntry (es : List DayEntry) (d : Nat) :
    ((es.map swapEntryStatus).any (fun e => e.date == d && e.status == "Base"))
      = es.any (fun e => e.date == d && e.status == "בסיס") := by
  induction es with
  | nil => rfl
  | cons e es ih =>
      simp only [List.map_cons, List.any_cons, ih]
      congr 1
      show ((swapEntryStatus e).date == d && (swapEntryStatus e).status == "Base") = _
      have hd : (swapEntryStatus e).date = e.date := rfl
      have hs : (swapEntryStatus e).status = swapStatusLiteral e.status := rfl
      rw [hd, hs, swapStatusLiteral_eq_base]

/-! ## C9: the two presence-map projections -/

/-- C9 counterexample: on the same `solution_data`, placing soldier `"A"`
on base on day 1 with the status literal `"Base"`, the async projection
lists `"A"` while the sync projection lists nobody, so the two
presence-map implementations are not equivalent as claimed. -/
theorem sync_async_presence_not_equivalent :
    syncPresence solBaseA 1 ≠ asyncPresence solBaseA 1
    ∧ asyncPresence solBaseA 1 = ["A"]
    ∧ syncPresence solBaseA 1 = [] := by
  refine ⟨?_, by decide, by decide⟩
  decide

/-- C9 amended: the sync projection (views.py, matching `'בסיס'`) equals
the async projection (tasks.py, matching `'Base'`) applied to the same
solution with the two status literals interchanged, for every solution
mapping and date. -/
theorem sync_presence_eq_swapped_async (sol : SolutionData) (d : Nat) :
    syncPresence sol d = asyncPresence (swapSolutionStatuses sol) d := by
  unfold syncPresence asyncPresence swapSolutionStatuses
  induction sol with
  | nil => rfl
  | cons p ps ih =>
      obtain ⟨a, b⟩ := p
      simp only [List.map_cons, List.filter_cons]
      rw [any_swapEntry]
      by_cases hc : (decide (a ≠ "daily_soldiers_count")
          && b.any (fun e => e.date == d && e.status == "בסיס")) = true
      · simp only [hc, if_pos trivial, List.map_cons, ih]
      · simp only [Bool.not_eq_true] at hc
        simp only [hc, Bool.false_eq_true, if_false, ih]

/-! ## C10: saved `is_on_base` depends only on the name -/

/-- C10: in the assignment-saving step, the recorded `is_on_base` value is
a function of the soldier's name and the day's presence list alone: two
soldiers with equal names receive equal values on every day, under both
the async (tasks.py) and sync (views.py) presence maps. -/
theorem saved_on_base_determined_by_name (sol : SolutionData) (d : Nat)
    (s1 s2 : AlgoSoldier) (h : s1.name = s2.name) :
    savedIsOnBase (asyncPresence sol d) s1 = savedIsOnBase (asyncPresence sol d) s2
    ∧ savedIsOnBase (syncPresence sol d) s1 = savedIsOnBase (syncPresence sol d) s2 := by
  unfold savedIsOnBase
  rw [h]
  exact ⟨rfl, rfl⟩

/-- C10 witness: the theorem applied to two soldiers with ids `"1"` and
`"2"` sharing the name `"A"`, on the solution placing `"A"` on base on
day 1. -/
theorem saved_on_base_determined_by_name_witness :
    savedIsOnBase (asyncPresence solBaseA 1) soldierA1
        = savedIsOnBase (asyncPresence solBaseA 1) soldierA2
    ∧ savedIsOnBase (syncPresence solBaseA 1) soldierA1
        = savedIsOnBase (syncPresence solBaseA 1) soldierA2 :=
  saved_on_base_determined_by_name solBaseA 1 soldierA1 soldierA2 rfl

/-! ## C4: schedule output iff Optimal or Feasible -/

/-- C4: under the driver contract (solution data returned iff the status
is Optimal or Feasible), the async result gate of tasks.py and the sync
result gate of views.py both save assignments exactly when the status is
Optimal or Feasible; on Infeasible, Unknown or Error nothing is saved. -/
theorem schedule_saved_iff_solver_success (sol : Option SolutionData)
    (st : SolverStatus) (h : driverContract sol st) :
    (asyncSaveGate sol st = true ↔ (st = SolverStatus.optimal ∨ st = SolverStatus.feasible))
    ∧ (syncSaveGate sol true = true ↔ (st = SolverStatus.optimal ∨ st = SolverStatus.feasible)) := by
  unfold driverContract at h
  unfold asyncSaveGate syncSaveGate
  constructor
  · rw [Bool.and_eq_true, Bool.or_eq_true, beq_iff_eq, beq_iff_eq]
    constructor
    · rintro ⟨-, hor⟩; exact hor
    · intro hor; exact ⟨h.mpr hor, hor⟩
  · rw [Bool.and_eq_true]
    constructor
    · rintro ⟨hs, -⟩; exact h.mp hs
    · intro hor; exact ⟨h.mpr hor, rfl⟩

/-- C4 witness: the theorem applied at an Optimal status with a concrete
returned solution. -/
theorem schedule_saved_iff_solver_success_witness :
    (asyncSaveGate (some solBaseB) SolverStatus.optimal = true
        ↔ (SolverStatus.optimal = SolverStatus.optimal ∨ SolverStatus.optimal = SolverStatus.feasible))
    ∧ (syncSaveGate (some solBaseB) true = true
        ↔ (SolverStatus.optimal = SolverStatus.optimal ∨ SolverStatus.optimal = SolverStatus.feasible)) :=
  schedule_saved_iff_solver_success (some solBaseB) SolverStatus.optimal
    ⟨fun _ => Or.inl rfl, fun _ => rfl⟩

/-! ## C8: CLI exit codes -/

/-- C8 counterexample: a solver run compatible with status Infeasible
(no solution data) makes both the stateless management command and the
end-to-end pipeline exit with code 1, not the claimed code 2. -/
theorem exit_code_on_infeasible_is_one :
    driverContract none SolverStatus.infeasible
    ∧ statelessExitCode none = 1
    ∧ pipelineExitCode none = 1
    ∧ statelessExitCode none ≠ 2
    ∧ pipelineExitCode none ≠ 2 := by
  refine ⟨?_, rfl, rfl, by decide, by decide⟩
  unfold driverContract
  simp

/-- C8 amended: under the driver contract, both CLI drivers exit with
code 0 when the status is Optimal or Feasible and with code 1 on every
other status (Infeasible, Unknown and Error alike); no driver uses exit
code 2. -/
theorem exit_code_zero_iff_solved (sol : Option SolutionData)
    (st : SolverStatus) (h : driverContract sol st) :
    statelessExitCode sol
        = (if st = SolverStatus.optimal ∨ st = SolverStatus.feasible then 0 else 1)
    ∧ pipelineExitCode sol
        = (if st = SolverStatus.optimal ∨ st = SolverStatus.feasible then 0 else 1) := by
  unfold driverContract at h
  unfold statelessExitCode pipelineExitCode
  by_cases hor : st = SolverStatus.optimal ∨ st = SolverStatus.feasible
  · have hs : sol.isSome = true := h.mpr hor
    simp [hs, hor]
  · have hs : sol.isSome = false := by
      cases hcase : sol.isSome
      · rfl
      · exact absurd (h.mp hcase) hor
    simp [hs, hor]

/-- C8 amended witness: the theorem applied at an Optimal status with a
concrete returned solution, giving exit code 0. -/
theorem exit_code_zero_iff_solved_witness :
    statelessExitCode (some statelessWitnessSol)
        = (if SolverStatus.optimal = SolverStatus.optimal ∨ SolverStatus.optimal = SolverStatus.feasible then 0 else 1)
    ∧ pipelineExitCode (some statelessWitnessSol)
        = (if SolverStatus.optimal = SolverStatus.optimal ∨ SolverStatus.optimal = SolverStatus.feasible then 0 else 1) :=
  exit_code_zero_iff_solved (some statelessWitnessSol) SolverStatus.optimal
    ⟨fun _ => Or.inl rfl, fun _ => rfl⟩

/-! ## C3: the adaptive penalty table -/

/-- C3: for every original parameter record, the adapter returns exactly
the reference penalty table for each of the four difficulty classes; each
of the five penalties is strictly increasing along MEDIUM < HARD <
EXTREME < APOCALYPTIC; and within each class the ordering one-day block >
zero-work > critical-long-block > shortage > long-block holds. -/
theorem adaptive_parameters_table : ∀ p : AdaptiveParams,
    (penaltyVector (getAdaptiveParameters "MEDIUM" p)
        = (10000000, 1000000, 5000000, 50000, 2000000)
      ∧ penaltyVector (getAdaptiveParameters "HARD" p)
        = (20000000, 2000000, 10000000, 100000, 5000000)
      ∧ penaltyVector (getAdaptiveParameters "EXTREME" p)
        = (30000000, 3000000, 15000000, 150000, 7000000)
      ∧ penaltyVector (getAdaptiveParameters "APOCALYPTIC" p)
        = (50000000, 5000000, 20000000, 200000, 10000000))
    ∧ ((getAdaptiveParameters "MEDIUM" p).penaltyOneDayBlock
          < (getAdaptiveParameters "HARD" p).penaltyOneDayBlock
      ∧ (getAdaptiveParameters "HARD" p).penaltyOneDayBlock
          < (getAdaptiveParameters "EXTREME" p).penaltyOneDayBlock
      ∧ (getAdaptiveParameters "EXTREME" p).penaltyOneDayBlock
          < (getAdaptiveParameters "APOCALYPTIC" p).penaltyOneDayBlock
      ∧ (getAdaptiveParameters "MEDIUM" p).penaltyShortage
          < (getAdaptiveParameters "HARD" p).penaltyShortage
      ∧ (getAdaptiveParameters "HARD" p).penaltyShortage
          < (getAdaptiveParameters "EXTREME" p).penaltyShortage
      ∧ (getAdaptiveParameters "EXTREME" p).penaltyShortage
          < (getAdaptiveParameters "APOCALYPTIC" p).penaltyShortage
      ∧ (getAdaptiveParameters "MEDIUM" p).penaltyNoWork
          < (getAdaptiveParameters "HARD" p).penaltyNoWork
      ∧ (getAdaptiveParameters "HARD" p).penaltyNoWork
          < (getAdaptiveParameters "EXTREME" p).penaltyNoWork
      ∧ (getAdaptiveParameters "EXTREME" p).penaltyNoWork
          < (getAdaptiveParameters "APOCALYPTIC" p).penaltyNoWork
      ∧ (getAdaptiveParameters "MEDIUM" p).penaltyLongBlock
          < (getAdaptiveParameters "HARD" p).penaltyLongBlock
      ∧ (getAdaptiveParameters "HARD" p).penaltyLongBlock
          < (getAdaptiveParameters "EXTREME" p).penaltyLongBlock
      ∧ (getAdaptiveParameters "EXTREME" p).penaltyLongBlock
          < (getAdaptiveParameters "APOCALYPTIC" p).penaltyLongBlock
      ∧ (getAdaptiveParameters "MEDIUM" p).criticalPenaltyLongBlock
          < (getAdaptiveParameters "HARD" p).criticalPenaltyLongBlock
      ∧ (getAdaptiveParameters "HARD" p).criticalPenaltyLongBlock
          < (getAdaptiveParameters "EXTREME" p).criticalPenaltyLongBlock
      ∧ (getAdaptiveParameters "EXTREME" p).criticalPenaltyLongBlock
          < (getAdaptiveParameters "APOCALYPTIC" p).criticalPenaltyLongBlock)
    ∧ ∀ c ∈ ["MEDIUM", "HARD", "EXTREME", "APOCALYPTIC"],
        (getAdaptiveParameters c p).penaltyOneDayBlock
            > (getAdaptiveParameters c p).penaltyNoWork
        ∧ (getAdaptiveParameters c p).penaltyNoWork
            > (getAdaptiveParameters c p).criticalPenaltyLongBlock
        ∧ (getAdaptiveParameters c p).criticalPenaltyLongBlock
            > (getAdaptiveParameters c p).penaltyShortage
        ∧ (getAdaptiveParameters c p).penaltyShortage
            > (getAdaptiveParameters c p).penaltyLongBlock := by
  intro p
  refine ⟨⟨rfl, rfl, rfl, rfl⟩, ?_, ?_⟩
  · refine ⟨?_, ?_, ?_, ?_, ?_, ?_, ?_, ?_, ?_, ?_, ?_, ?_, ?_, ?_, ?_⟩ <;>
      simp [getAdaptiveParameters]
  · intro c hc
    fin_cases hc <;> refine ⟨?_, ?_, ?_, ?_⟩ <;> simp [getAdaptiveParameters]

/-! ## C2: the difficulty classification -/

/-- C2: for every roster and window, the analyzer's heavy count is the
number of soldiers whose constraint density strictly exceeds 0.4, and its
difficulty is the first matching rule of the claimed table (APOCALYPTIC,
then EXTREME, then HARD, else MEDIUM) evaluated at that heavy count and
the analyzer's availability ratio. -/
theorem analyzer_difficulty_first_match (soldiers : List ASoldier)
    (startD endD minRequired : Nat) :
    (analyzeProblemComplexity soldiers startD endD minRequired).heavilyConstrained
        = soldiers.countP (fun s => densityQ (totalDaysOf startD endD) s > 2/5)
    ∧ (analyzeProblemComplexity soldiers startD endD minRequired).difficulty
        = difficultySpec
            (soldiers.countP (fun s => densityQ (totalDaysOf startD endD) s > 2/5))
            (analyzeProblemComplexity soldiers startD endD minRequired).ratio :=
  ⟨rfl, rfl⟩

/-! ## C7: the availability ratio at zero requirement -/

/-- C7 counterexample: with one unconstrained soldier over a five-day
window and `min_required_per_day = 0`, the analyzer returns ratio 1.0,
not `total_available / max(1, required_total) = 5` as the claim states. -/
theorem availability_ratio_not_claim_formula :
    (analyzeProblemComplexity oneFreeSoldier 1 5 0).requiredTotal = 0
    ∧ (analyzeProblemComplexity oneFreeSoldier 1 5 0).totalAvailable = 5
    ∧ (analyzeProblemComplexity oneFreeSoldier 1 5 0).ratio = 1
    ∧ (analyzeProblemComplexity oneFreeSoldier 1 5 0).ratio
        ≠ ((analyzeProblemComplexity oneFreeSoldier 1 5 0).totalAvailable : ℚ)
          / (((max 1 (analyzeProblemComplexity oneFreeSoldier 1 5 0).requiredTotal) : ℕ) : ℚ) := by
  refine ⟨rfl, by norm_num [analyzeProblemComplexity, totalDaysOf, oneFreeSoldier], ?_, ?_⟩
  · norm_num [analyzeProblemComplexity, totalDaysOf, oneFreeSoldier]
  · norm_num [analyzeProblemComplexity, totalDaysOf, oneFreeSoldier]

/-- C7 amended: the analyzer computes
`availability_ratio = total_available / required_total` when
`required_total > 0` (where the claim's `max(1, required_total)` is the
same divisor) and `1.0` — not `total_available` — when
`required_total = 0`. -/
theorem availability_ratio_formula (soldiers : List ASoldier)
    (startD endD minRequired : Nat) :
    (analyzeProblemComplexity soldiers startD endD minRequired).ratio
      = if (analyzeProblemComplexity soldiers startD endD minRequired).requiredTotal = 0
        then 1
        else ((analyzeProblemComplexity soldiers startD endD minRequired).totalAvailable : ℚ)
          / (((max 1 (analyzeProblemComplexity soldiers startD endD minRequired).requiredTotal) : ℕ) : ℚ) := by
  by_cases h : totalDaysOf startD endD * minRequired = 0
  · simp [analyzeProblemComplexity, h]
  · have h1 : 0 < totalDaysOf startD endD * minRequired := Nat.pos_of_ne_zero h
    have h2 : max 1 (totalDaysOf startD endD * minRequired)
        = totalDaysOf startD endD * minRequired :=
      Nat.max_eq_right (Nat.one_le_iff_ne_zero.mpr h)
    simp [analyzeProblemComplexity, h, h1, h2]

/-! ## C6: the stateless calendar export -/

theorem calFoldEntries_eq (name : String) (d : Nat) :
    ∀ (es : List StatelessEntry) (cal : DayCal),
      calFoldEntries name d cal es
        = { onBase := cal.onBase
              ++ (es.filter (fun e => e.date == some d && e.status == some "Base")).map
                  (fun _ => ({ id := none, name := name } : CalPerson)),
            atHome := cal.atHome
              ++ (es.filter (fun e => e.date == some d && !(e.status == some "Base"))).map
                  (fun _ => ({ id := none, name := name } : CalPerson)) } := by
  intro es
  induction es with
  | nil => intro cal; simp [calFoldEntries]
  | cons e es ih =>
      intro cal
      rw [calFoldEntries, ih]
      rcases hdt : e.date with - | dd
      · have hstep : calEntryStep name d cal e = cal := by
          unfold calEntryStep; rw [hdt]
        have hb : (e.date == some d) = false := by rw [hdt]; rfl
        simp [hstep, List.filter_cons, hb]
      · by_cases hdd : dd = d
        · have hb : (e.date == some d) = true := by rw [hdt]; simp [hdd]
          by_cases hst : e.status = some "Base"
          · have hstep : calEntryStep name d cal e
                = { cal with onBase := cal.onBase ++ [{ id := none, name := name }] } := by
              unfold calEntryStep; rw [hdt]; simp [hdd, hst]
            have hs : (e.status == some "Base") = true := by simp [hst]
            simp [hstep, List.filter_cons, hb, hs, List.append_assoc]
          · have hstep : calEntryStep name d cal e
                = { cal with atHome := cal.atHome ++ [{ id := none, name := name }] } := by
              unfold calEntryStep; rw [hdt]; simp [hdd, hst]
            have hs : (e.status == some "Base") = false := by simp [hst]
            simp [hstep, List.filter_cons, hb, hs, List.append_assoc]
        · have hstep : calEntryStep name d cal e = cal := by
            unfold calEntryStep; rw [hdt]; simp [hdd]
          have hb : (e.date == some d) = false := by rw [hdt]; simp [hdd]
          simp [hstep, List.filter_cons, hb]

theorem statelessCalendarGo_eq (d : Nat) :
    ∀ (sol : StatelessSolution) (cal : DayCal),
      statelessCalendarGo d cal sol
        = { onBase := cal.onBase ++ calOnBaseSpec sol d,
            atHome := cal.atHome ++ calAtHomeSpec sol d } := by
  intro sol
  induction sol with
  | nil => intro cal; simp [statelessCalendarGo, calOnBaseSpec, calAtHomeSpec]
  | cons p ps ih =>
      intro cal
      rw [statelessCalendarGo, ih]
      by_cases hk : p.1 = "daily_soldiers_count"
      · have hb : (decide (p.1 ≠ "daily_soldiers_count")) = false := by simp [hk]
        simp [hk, calOnBaseSpec, calAtHomeSpec, List.filter_cons, hb]
      · have hb : (decide (p.1 ≠ "daily_soldiers_count")) = true := by simp [hk]
        simp only [hk, if_false, calFoldEntries_eq]
        simp [calOnBaseSpec, calAtHomeSpec, List.filter_cons, hb, hk, List.flatMap_cons,
          List.append_assoc]

/-- C6 counterexample: for the solution placing soldier `"A"` on base on
day 1, the stateless calendar export emits for that date an `on_base`
entry carrying only the name — its `id` key is absent — so the claim that
every entry contains both the person's id and name fails. -/
theorem calendar_export_entry_lacks_id :
    statelessCalendarAt statelessSolA 1
        = { onBase := [{ id := none, name := "A" }], atHome := [] }
    ∧ ((statelessCalendarAt statelessSolA 1).onBase.all (fun e => e.id.isSome)) = false := by
  constructor
  · rw [statelessCalendarAt, statelessCalendarGo_eq]
    rfl
  · rw [statelessCalendarAt, statelessCalendarGo_eq]
    rfl

/-- C6 amended: for every solution and date, the stateless calendar export
maps the date to `{on_base, at_home}` where `on_base` lists, in the
soldiers' input order, one entry per schedule item with that date and
status `"Base"`, and `at_home` one entry per item with that date and any
other status; every entry carries the person's name but no id. -/
theorem calendar_export_shape (sol : StatelessSolution) (d : Nat) :
    statelessCalendarAt sol d
        = { onBase := calOnBaseSpec sol d, atHome := calAtHomeSpec sol d }
    ∧ (∀ e ∈ calOnBaseSpec sol d, e.id = none)
    ∧ (∀ e ∈ calAtHomeSpec sol d, e.id = none) := by
  refine ⟨?_, ?_, ?_⟩
  · rw [statelessCalendarAt, statelessCalendarGo_eq]
    simp
  · intro e he
    simp only [calOnBaseSpec, List.mem_flatMap, List.mem_map] at he
    obtain ⟨p, -, -, -, he⟩ := he
    rw [← he]
  · intro e he
    simp only [calAtHomeSpec, List.mem_flatMap, List.mem_map] at he
    obtain ⟨p, -, -, -, he⟩ := he
    rw [← he]

/-! ## Generator lemmas for C1 and C5 -/

theorem tryAssign_fst_mem (available : List String) (rs : Nat)
    (da : List String) (assigned : Nat) (x : String)
    (hx : x ∈ (tryAssign available rs da assigned).1) : x ∈ da ∨ x ∈ available := by
  unfold tryAssign at hx
  split at hx
  next soldier hg =>
    by_cases hc : da.contains soldier
    · rw [if_pos hc] at hx; exact Or.inl hx
    · rw [if_neg hc] at hx
      rcases List.mem_append.mp hx with h | h
      · exact Or.inl h
      · have hxs : x = soldier := List.mem_singleton.mp h
        subst hxs
        exact Or.inr (List.getElem?_mem hg)
  next hg => exact Or.inl hx

theorem assignStep_mem (available : List String) (perDay : Nat) :
    ∀ (fuel assigned rot : Nat) (da : List String) (x : String),
      x ∈ assignStep available perDay fuel assigned rot da → x ∈ da ∨ x ∈ available := by
  intro fuel
  induction fuel with
  | zero =>
      intro assigned rot da x hx
      rw [assignStep] at hx
      exact Or.inl hx
  | succ n ih =>
      intro assigned rot da x hx
      rw [assignStep] at hx
      split at hx
      · split at hx
        · exact tryAssign_fst_mem _ _ _ _ _ hx
        · rcases ih _ _ _ _ hx with h | h
          · exact tryAssign_fst_mem _ _ _ _ _ h
          · exact Or.inr h
      · exact Or.inl hx

theorem dailyAssignments_mem (available : List String) (rot : Nat) (x : String)
    (hx : x ∈ dailyAssignments available rot) : x ∈ available := by
  rcases assignStep_mem available 4 _ _ _ _ x hx with h | h
  · exact absurd h (List.not_mem_nil x)
  · exact h

theorem not_mem_availableToday (startD endD : Nat) (employees : List Employee)
    (emp : Employee) (hm : emp ∈ employees)
    (hnd : (employees.map Employee.name).Nodup)
    (d : Nat) (hdu : d ∈ emp.unavailableDays) (h1 : startD ≤ d) (h2 : d ≤ endD) :
    emp.name ∉ availableToday startD endD employees d := by
  intro hmem
  unfold availableToday at hmem
  rcases List.mem_map.mp hmem with ⟨emp2, hemp2, hname⟩
  rcases List.mem_filter.mp hemp2 with ⟨hemp2mem, hpred⟩
  have he : emp2 = emp := List.inj_on_of_nodup_map hnd hemp2mem hm hname
  subst he
  have hd2 : d ∈ effectiveUnavailable startD endD emp2 := by
    simp [effectiveUnavailable, hdu, h1, h2]
  simp at hpred
  exact hpred.1 hd2

theorem mem_dayRows (startD endD : Nat) (employees : List Employee)
    (rot d : Nat) (row : RowOut)
    (hr : row ∈ dayRows startD endD employees rot d) :
    ∃ emp ∈ employees,
      row = { date := d, name := emp.name,
              status :=
                if (dailyAssignments (availableToday startD endD employees d)
                      rot).contains emp.name
                then "Base" else "Home",
              is_weekend := isWeekendDay d } := by
  simp only [dayRows, List.mem_map] at hr
  rcases hr with ⟨emp, hemp, heq⟩
  exact ⟨emp, hemp, heq.symm⟩

theorem mem_generateRows_aux (startD endD : Nat) (employees : List Employee) :
    ∀ (ds : List Nat) (acc : List RowOut × Nat) (row : RowOut),
      row ∈ (ds.foldl (fun (acc : List RowOut × Nat) d =>
          (acc.1 ++ dayRows startD endD employees acc.2 d,
           nextRotation employees.length acc.2)) acc).1 →
      row ∈ acc.1 ∨ ∃ rot d, d ∈ ds ∧ row ∈ dayRows startD endD employees rot d := by
  intro ds
  induction ds with
  | nil => intro acc row h; exact Or.inl h
  | cons d ds ih =>
      intro acc row h
      rw [List.foldl_cons] at h
      rcases ih _ row h with h1 | ⟨rot, d', hd', hrow⟩
      · rcases List.mem_append.mp h1 with h2 | h2
        · exact Or.inl h2
        · exact Or.inr ⟨acc.2, d, List.mem_cons_self d ds, h2⟩
      · exact Or.inr ⟨rot, d', List.mem_cons_of_mem d hd', hrow⟩

theorem mem_generateRows (startD endD : Nat) (employees : List Employee)
    (row : RowOut) (hr : row ∈ generateRows startD endD employees) :
    ∃ rot d, d ∈ datesOf startD endD ∧ row ∈ dayRows startD endD employees rot d := by
  unfold generateRows at hr
  rcases mem_generateRows_aux startD endD employees _ _ row hr with h | h
  · exact absurd h (List.not_mem_nil row)
  · exact h

/-! ## C1: unavailability forces Home -/

/-- C1: out-of-window unavailability entries are exactly the ones dropped
by the (total, non-raising) window filter, and for every person with a
window-contained unavailable day, every generated record for that person
on that day has status Home — the generator never places them on Base.
Names are assumed pairwise distinct, as the spec's data model requires. -/
theorem unavailable_day_forces_home (startD endD : Nat)
    (employees : List Employee)
    (hnd : (employees.map Employee.name).Nodup)
    (emp : Employee) (hm : emp ∈ employees)
    (d : Nat) (hdu : d ∈ emp.unavailableDays) (h1 : startD ≤ d) (h2 : d ≤ endD) :
    (∀ d', d' ∈ effectiveUnavailable startD endD emp
        ↔ (d' ∈ emp.unavailableDays ∧ startD ≤ d' ∧ d' ≤ endD))
    ∧ ∀ row ∈ generateRows startD endD employees,
        row.name = emp.name → row.date = d → row.status = "Home" := by
  constructor
  · intro d'
    simp [effectiveUnavailable, List.mem_filter, and_assoc]
  · intro row hrow hname hdate
    rcases mem_generateRows startD endD employees row hrow with ⟨rot, d', hd', hrowd⟩
    rcases mem_dayRows startD endD employees rot d' row hrowd with ⟨emp2, hemp2, heq⟩
    have hdd : d' = d := by rw [heq] at hdate; exact hdate
    subst hdd
    have hname2 : emp2.name = emp.name := by rw [heq] at hname; exact hname
    have hnotmem : emp.name ∉ availableToday startD endD employees d' :=
      not_mem_availableToday startD endD employees emp hm hnd d' hdu h1 h2
    have hnm2 : emp2.name ∉ dailyAssignments (availableToday startD endD employees d') rot := by
      rw [hname2]
      intro hc
      exact hnotmem (dailyAssignments_mem _ _ _ hc)
    rw [heq]
    simp [hnm2]

/-- C1 witness: the theorem applied to the two-employee roster where `"A"`
is unavailable on day 3 of the window 1..5; the generated record for
`"A"` on day 3 has status Home. -/
theorem unavailable_day_forces_home_witness :
    ((3 ∈ effectiveUnavailable 1 5 { name := "A", unavailableDays := [3] })
        ↔ (3 ∈ ({ name := "A", unavailableDays := [3] } : Employee).unavailableDays
            ∧ 1 ≤ 3 ∧ 3 ≤ 5))
    ∧ ({ date := 3, name := "A", status := "Home", is_weekend := false } : RowOut).status
        = "Home" := by
  have h := unavailable_day_forces_home 1 5 rosterAB (by decide)
    { name := "A", unavailableDays := [3] } (by decide) 3 (by decide)
    (by decide) (by decide)
  exact ⟨h.1 3, h.2 _ (by decide) rfl rfl⟩

/-! ## C5: the weekend classification -/

/-- C5 counterexample: over the one-day window consisting of ordinal 5 — a
Friday (`weekday = 4`) — the generator emits a single record whose
`is_weekend` flag is false, so days are not marked weekend on Fridays as
the claimed `{Fri, Sat}` set requires. -/
theorem friday_not_marked_weekend :
    generateRows 5 5 rosterA
        = [{ date := 5, name := "A", status := "Base", is_weekend := false }]
    ∧ pyWeekday 5 = 4 := by
  exact ⟨by decide, rfl⟩

/-- C5 amended: every generated record marks its day as a weekend day iff
the day is a Saturday (`weekday == 5`) — not Friday-or-Saturday — and the
Excel export's date-header weekend fill uses the same Saturday-only
rule. -/
theorem weekend_flag_saturday_only (startD endD : Nat)
    (employees : List Employee) :
    (∀ row ∈ generateRows startD endD employees,
        row.is_weekend = (pyWeekday row.date == 5))
    ∧ ∀ d : Nat, excelHeaderWeekendFill d = (pyWeekday d == 5) := by
  constructor
  · intro row hrow
    rcases mem_generateRows startD endD employees row hrow with ⟨rot, d', hd', hrowd⟩
    rcases mem_dayRows startD endD employees rot d' row hrowd with ⟨emp2, hemp2, heq⟩
    rw [heq]
    rfl
  · intro d
    rfl

end ScheduleManager
